import Mathlib

/-!
Verification of the Assessment Quality Score (AQS) system.

This file gives a shallow embedding of the scoring pipeline
(`aqs_evaluator.py`), the checkpoint manager (`checkpoint_manager.py`),
the data loader's warning accumulation (`data_loader.py`) and the
course-evaluation loop (`main.py`), and proves or refutes the frozen
claims about them.  Python floats are modelled by exact rationals,
Python strings by Lean strings or lists of characters, and JSON
dictionaries by structures of optional fields (a `none` field is an
absent key, mirroring `dict.get(key, default)`).
-/

namespace AQS

/-- The six Bloom taxonomy levels, the keys of the weight table returned by
`prompt_manager.get_blooms_weights` and of the `blooms_scores` mapping of the
analysis response. -/
inductive BloomsLevel
  | remember
  | understand
  | apply
  | analyze
  | evaluate
  | create
deriving DecidableEq, Repr

/-- The levels in the insertion order of the dictionary built by
`get_blooms_weights` (the iteration order of `weights.items()` in python). -/
def allLevels : List BloomsLevel :=
  [.remember, .understand, .apply, .analyze, .evaluate, .create]

/-- Embeds `prompt_manager.get_blooms_weights` (prompt_manager.py lines
304-314): the YAML `blooms_weights` mapping is external configuration,
modelled as an optional lookup `yaml`; each level falls back to its
hard-coded default (1.0, 1.5, 2.0, 2.5, 3.0, 3.5). -/
def get_blooms_weights (yaml : BloomsLevel → Option ℚ) : BloomsLevel → ℚ
  | .remember => (yaml .remember).getD 1
  | .understand => (yaml .understand).getD (3/2)
  | .apply => (yaml .apply).getD 2
  | .analyze => (yaml .analyze).getD (5/2)
  | .evaluate => (yaml .evaluate).getD 3
  | .create => (yaml .create).getD (7/2)

/-- The weight table obtained when the YAML file defines no `blooms_weights`
entry: remember 1.0, understand 1.5, apply 2.0, analyze 2.5, evaluate 3.0,
create 3.5. -/
def defaultBloomsWeights : BloomsLevel → ℚ := get_blooms_weights (fun _ => none)

/-- Python `max(weights.values())` over the six weights. -/
def maxWeight (w : BloomsLevel → ℚ) : ℚ :=
  [w .understand, w .apply, w .analyze, w .evaluate, w .create].foldl max (w .remember)

/-- The `difficulty_analysis` sub-dictionary of the parsed analysis response.
A `none` field models an absent key. -/
structure DifficultyDict where
  difficulty_level : Option String := none
  difficulty_rationale : Option String := none
  complexity_score : Option ℚ := none
  language_difficulty_score : Option ℚ := none
  cognitive_effort_score : Option ℚ := none
  course_alignment_score : Option ℚ := none

/-- The `blooms_taxonomy` sub-dictionary of the parsed analysis response.
`blooms_scores := none` models an absent (or, with `some fun _ => none`, an
empty) scores mapping. -/
structure BloomsDict where
  blooms_scores : Option (BloomsLevel → Option ℚ) := none
  blooms_distribution_summary : Option String := none

/-- Python `round` on a rational: round to the nearest integer, ties to the
nearest even integer (banker's rounding). -/
def roundHalfEven (q : ℚ) : ℤ :=
  let f := ⌊q⌋
  let r := q - f
  if r < 1/2 then f
  else if 1/2 < r then f + 1
  else if 2 ∣ f then f else f + 1

/-- Python `round(x, 2)`: round to two decimal places. -/
def pyRound2 (q : ℚ) : ℚ := (roundHalfEven (q * 100) : ℚ) / 100

/-- The difficulty component of `_compute_final_aqs` (aqs_evaluator.py lines
683-690): the mean of the four difficulty sub-scores (each defaulting to 5
when the key is absent) scaled by 10. -/
def difficultyComponent (difficulty_result : DifficultyDict) : ℚ :=
  let diff_scores : List ℚ :=
    [difficulty_result.complexity_score.getD 5,
     difficulty_result.language_difficulty_score.getD 5,
     difficulty_result.cognitive_effort_score.getD 5,
     difficulty_result.course_alignment_score.getD 5]
  (diff_scores.sum / diff_scores.length) * 10

/-- The Bloom taxonomy component of `_compute_final_aqs` (aqs_evaluator.py
lines 692-707): a per-level score of 0 when absent, weighted sum divided by
total weight, rescaled by `100 / max(weights.values())`; if the total weight
is not positive, 50. -/
def bloomsComponent (weights : BloomsLevel → ℚ) (blooms_result : BloomsDict) : ℚ :=
  let blooms_scores := blooms_result.blooms_scores.getD (fun _ => none)
  let total_weighted := (allLevels.map (fun l => (blooms_scores l).getD 0 * weights l)).sum
  let total_weight := (allLevels.map weights).sum
  if 0 < total_weight then (total_weighted / total_weight) * (100 / maxWeight weights)
  else 50

/-- Embeds `AQSEvaluator._compute_final_aqs` (aqs_evaluator.py lines 667-719).
`weights` is the table returned by `get_blooms_weights`. -/
def compute_final_aqs (weights : BloomsLevel → ℚ) (difficulty_result : DifficultyDict)
    (blooms_result : BloomsDict) (course_fit_score : ℚ) (is_standalone : Bool) : ℚ :=
  let difficulty_component := difficultyComponent difficulty_result
  let blooms_component := bloomsComponent weights blooms_result
  let aqs :=
    if is_standalone then
      difficulty_component * 0.40 + blooms_component * 0.60
    else
      difficulty_component * 0.25 + blooms_component * 0.35 + course_fit_score * 0.40
  pyRound2 (min 100 (max 0 aqs))

/-- Embeds `AQSEvaluator._get_aqs_quality_tier` (aqs_evaluator.py lines
721-741). -/
def get_aqs_quality_tier (aqs_score : ℚ) : String :=
  if 85 ≤ aqs_score then "Excellent"
  else if 70 ≤ aqs_score then "Good"
  else if 55 ≤ aqs_score then "Satisfactory"
  else if 40 ≤ aqs_score then "Needs Improvement"
  else "Poor"

/-- Position of a tier name in the quality ladder, bottom (0) to top (4). -/
def tierRank (t : String) : ℕ :=
  if t = "Poor" then 0
  else if t = "Needs Improvement" then 1
  else if t = "Satisfactory" then 2
  else if t = "Good" then 3
  else 4

theorem roundHalfEven_nonneg {q : ℚ} (h : 0 ≤ q) : 0 ≤ roundHalfEven q := by
  have hf : (0 : ℤ) ≤ ⌊q⌋ := Int.floor_nonneg.mpr h
  simp only [roundHalfEven]
  split_ifs <;> omega

theorem roundHalfEven_le {q : ℚ} {c : ℤ} (h : q ≤ c) : roundHalfEven q ≤ c := by
  have hf : ⌊q⌋ ≤ c := by
    have := Int.floor_le_floor h
    simpa using this
  simp only [roundHalfEven]
  split_ifs with h1 h2 h3
  · exact hf
  · -- here 1/2 < q - ⌊q⌋, so ⌊q⌋ < q - 1/2 ≤ c - 1/2, hence ⌊q⌋ + 1 ≤ c
    have hlt : ((⌊q⌋ : ℚ)) < (c : ℚ) := by linarith
    have : ⌊q⌋ < c := by exact_mod_cast hlt
    omega
  · exact hf
  · -- tie case with odd floor: q - ⌊q⌋ = 1/2 exactly
    have hr : q - (⌊q⌋ : ℚ) = 1/2 := le_antisymm (not_lt.mp h2) (not_lt.mp h1)
    have hlt : ((⌊q⌋ : ℚ)) < (c : ℚ) := by linarith
    have : ⌊q⌋ < c := by exact_mod_cast hlt
    omega

theorem pyRound2_bounds {q : ℚ} (h0 : 0 ≤ q) (h1 : q ≤ 100) :
    0 ≤ pyRound2 q ∧ pyRound2 q ≤ 100 := by
  have hl : 0 ≤ roundHalfEven (q * 100) := roundHalfEven_nonneg (by linarith)
  have hu : roundHalfEven (q * 100) ≤ (10000 : ℤ) := by
    apply roundHalfEven_le
    push_cast
    linarith
  constructor
  · unfold pyRound2
    apply div_nonneg _ (by norm_num : (0:ℚ) ≤ 100)
    exact_mod_cast hl
  · unfold pyRound2
    rw [div_le_iff₀ (by norm_num : (0:ℚ) < 100)]
    calc ((roundHalfEven (q * 100) : ℚ)) ≤ (10000 : ℚ) := by exact_mod_cast hu
      _ = 100 * 100 := by norm_num

theorem clamp_round_bounds (x : ℚ) :
    0 ≤ pyRound2 (min 100 (max 0 x)) ∧ pyRound2 (min 100 (max 0 x)) ≤ 100 :=
  pyRound2_bounds (le_min (by norm_num) (le_max_left 0 x)) (min_le_left 100 (max 0 x))

/-- Claim C1: the composite AQS computed by `_compute_final_aqs` is the
standalone formula 0.40×difficulty + 0.60×taxonomy or the course-linked
formula 0.25×difficulty + 0.35×taxonomy + 0.40×course_fit, clamped to
[0, 100] and rounded to two decimals, and for any sub-score inputs the
returned value lies within [0, 100]. -/
theorem compute_final_aqs_spec (weights : BloomsLevel → ℚ)
    (difficulty_result : DifficultyDict) (blooms_result : BloomsDict)
    (course_fit_score : ℚ) (is_standalone : Bool) :
    compute_final_aqs weights difficulty_result blooms_result course_fit_score is_standalone =
      pyRound2 (min 100 (max 0
        (if is_standalone then
          difficultyComponent difficulty_result * 0.40 +
            bloomsComponent weights blooms_result * 0.60
        else
          difficultyComponent difficulty_result * 0.25 +
            bloomsComponent weights blooms_result * 0.35 +
            course_fit_score * 0.40))) ∧
    0 ≤ compute_final_aqs weights difficulty_result blooms_result course_fit_score is_standalone ∧
    compute_final_aqs weights difficulty_result blooms_result course_fit_score is_standalone ≤ 100 := by
  refine ⟨rfl, ?_, ?_⟩
  · exact (clamp_round_bounds _).1
  · exact (clamp_round_bounds _).2

/-- The difficulty dictionary of the spec scenario: sub-scores 8, 6, 7, 9. -/
def scenarioDifficulty : DifficultyDict :=
  { complexity_score := some 8, language_difficulty_score := some 6,
    cognitive_effort_score := some 7, course_alignment_score := some 9 }

/-- The taxonomy dictionary of the spec scenario: all six scores equal 50. -/
def scenarioBlooms : BloomsDict := { blooms_scores := some (fun _ => some 50) }

/-- Claim C2 (refutation by evaluation): on the scenario input — difficulty
sub-scores [8, 6, 7, 9], all taxonomy scores 50, standalone = false,
course_fit = 70, default weight table — the code produces
difficulty_component = 75 as claimed, but its taxonomy component is
50 × (100 / 3.5) = 10000/7 ≈ 1428.57, not 50, so the composite clamps to
100 and the tier is "Excellent", not 64.25 / "Satisfactory". -/
theorem scenario_c2_eval :
    difficultyComponent scenarioDifficulty = 75 ∧
    bloomsComponent defaultBloomsWeights scenarioBlooms = 10000 / 7 ∧
    bloomsComponent defaultBloomsWeights scenarioBlooms ≠ 50 ∧
    compute_final_aqs defaultBloomsWeights scenarioDifficulty scenarioBlooms 70 false = 100 ∧
    compute_final_aqs defaultBloomsWeights scenarioDifficulty scenarioBlooms 70 false ≠ 64.25 ∧
    get_aqs_quality_tier
      (compute_final_aqs defaultBloomsWeights scenarioDifficulty scenarioBlooms 70 false) =
      "Excellent" := by
  refine ⟨?_, ?_, ?_, ?_, ?_, ?_⟩ <;>
    norm_num [difficultyComponent, bloomsComponent, compute_final_aqs, get_aqs_quality_tier,
      scenarioDifficulty, scenarioBlooms, defaultBloomsWeights, get_blooms_weights,
      allLevels, maxWeight, pyRound2, roundHalfEven]

/-- Claim C3 (refutation by evaluation): when the `blooms_scores` mapping is
absent, or present but empty, every per-level score defaults to 0 and with
the default (positive-total) weight table the taxonomy component is 0, not
50 — the `50` default branch is only reached when the total weight is not
positive. -/
theorem blooms_component_no_scores_eval :
    bloomsComponent defaultBloomsWeights {} = 0 ∧
    bloomsComponent defaultBloomsWeights { blooms_scores := some (fun _ => none) } = 0 ∧
    bloomsComponent defaultBloomsWeights {} ≠ 50 := by
  refine ⟨?_, ?_, ?_⟩ <;>
    norm_num [bloomsComponent, defaultBloomsWeights, get_blooms_weights, allLevels, maxWeight]

theorem tierRank_poor : tierRank "Poor" = 0 := rfl

theorem tierRank_needs : tierRank "Needs Improvement" = 1 := rfl

theorem tierRank_satisfactory : tierRank "Satisfactory" = 2 := rfl

theorem tierRank_good : tierRank "Good" = 3 := rfl

theorem tierRank_excellent : tierRank "Excellent" = 4 := rfl

/-- Claim C4: `_get_aqs_quality_tier` is the inclusive-lower-bound threshold
ladder ≥85 Excellent, ≥70 Good, ≥55 Satisfactory, ≥40 Needs Improvement,
else Poor; it is monotone in the score; and the standalone composite
0.40×80 + 0.60×60 = 68 classifies as "Satisfactory". -/
theorem quality_tier_ladder_monotone :
    (∀ s : ℚ, 85 ≤ s → get_aqs_quality_tier s = "Excellent") ∧
    (∀ s : ℚ, 70 ≤ s → s < 85 → get_aqs_quality_tier s = "Good") ∧
    (∀ s : ℚ, 55 ≤ s → s < 70 → get_aqs_quality_tier s = "Satisfactory") ∧
    (∀ s : ℚ, 40 ≤ s → s < 55 → get_aqs_quality_tier s = "Needs Improvement") ∧
    (∀ s : ℚ, s < 40 → get_aqs_quality_tier s = "Poor") ∧
    (∀ s₁ s₂ : ℚ, s₁ ≤ s₂ →
      tierRank (get_aqs_quality_tier s₁) ≤ tierRank (get_aqs_quality_tier s₂)) ∧
    get_aqs_quality_tier (80 * 0.40 + 60 * 0.60) = "Satisfactory" := by
  refine ⟨?_, ?_, ?_, ?_, ?_, ?_, ?_⟩
  · intro s h
    unfold get_aqs_quality_tier
    split_ifs <;> first | rfl | linarith
  · intro s h h'
    unfold get_aqs_quality_tier
    split_ifs <;> first | rfl | linarith
  · intro s h h'
    unfold get_aqs_quality_tier
    split_ifs <;> first | rfl | linarith
  · intro s h h'
    unfold get_aqs_quality_tier
    split_ifs <;> first | rfl | linarith
  · intro s h
    unfold get_aqs_quality_tier
    split_ifs <;> first | rfl | linarith
  · intro s₁ s₂ h
    unfold get_aqs_quality_tier
    split_ifs <;>
      simp only [tierRank_poor, tierRank_needs, tierRank_satisfactory, tierRank_good,
        tierRank_excellent] <;>
      first | omega | linarith
  · norm_num [get_aqs_quality_tier]

/-- Witness for C4 at concrete scores: 90 is Excellent, 70 is Good (inclusive
bound), 68 is Satisfactory, 40 is Needs Improvement, 39 is Poor, and the
rank at 55 is at most the rank at 72. -/
theorem quality_tier_ladder_monotone_witness :
    get_aqs_quality_tier 90 = "Excellent" ∧
    get_aqs_quality_tier 70 = "Good" ∧
    get_aqs_quality_tier 68 = "Satisfactory" ∧
    get_aqs_quality_tier 40 = "Needs Improvement" ∧
    get_aqs_quality_tier 39 = "Poor" ∧
    tierRank (get_aqs_quality_tier 55) ≤ tierRank (get_aqs_quality_tier 72) :=
  ⟨quality_tier_ladder_monotone.1 90 (by norm_num),
   quality_tier_ladder_monotone.2.1 70 (by norm_num) (by norm_num),
   quality_tier_ladder_monotone.2.2.1 68 (by norm_num) (by norm_num),
   quality_tier_ladder_monotone.2.2.2.1 40 (by norm_num) (by norm_num),
   quality_tier_ladder_monotone.2.2.2.2.1 39 (by norm_num),
   quality_tier_ladder_monotone.2.2.2.2.2.1 55 72 (by norm_num)⟩

/-- A per-1M-token pricing entry (USD). -/
structure Pricing where
  input : ℚ
  output : ℚ
deriving DecidableEq, Repr

/-- Embeds `MODEL_PRICING` (aqs_evaluator.py lines 21-39). -/
def MODEL_PRICING : List (String × Pricing) :=
  [("gemini-2.0-flash", ⟨0.10, 0.40⟩),
   ("gemini-2.5-flash", ⟨0.30, 2.50⟩),
   ("gemini-3-pro-preview", ⟨2.00, 12.00⟩),
   ("gemini-3-flash-preview", ⟨0.50, 3.00⟩)]

/-- Embeds `DEFAULT_PRICING` (aqs_evaluator.py lines 41-45). -/
def DEFAULT_PRICING : Pricing := ⟨0.10, 0.40⟩

/-- Python `MODEL_PRICING.get(model_name, DEFAULT_PRICING)`
(aqs_evaluator.py line 75). -/
def pricingFor (model_name : String) : Pricing :=
  (MODEL_PRICING.lookup model_name).getD DEFAULT_PRICING

/-- Embeds the `TokenMetrics` dataclass (aqs_evaluator.py lines 48-58):
token counts are python ints, costs python floats (exact rationals here). -/
structure TokenMetrics where
  input_tokens : ℤ := 0
  output_tokens : ℤ := 0
  thinking_tokens : ℤ := 0
  cached_tokens : ℤ := 0
  total_tokens : ℤ := 0
  input_cost : ℚ := 0
  output_cost : ℚ := 0
  total_cost : ℚ := 0
deriving DecidableEq, Repr

/-- Embeds `TokenMetrics.add` (aqs_evaluator.py lines 60-71). -/
def TokenMetrics.add (self other : TokenMetrics) : TokenMetrics where
  input_tokens := self.input_tokens + other.input_tokens
  output_tokens := self.output_tokens + other.output_tokens
  thinking_tokens := self.thinking_tokens + other.thinking_tokens
  cached_tokens := self.cached_tokens + other.cached_tokens
  total_tokens := self.total_tokens + other.total_tokens
  input_cost := self.input_cost + other.input_cost
  output_cost := self.output_cost + other.output_cost
  total_cost := self.total_cost + other.total_cost

/-- Embeds `TokenMetrics.calculate_cost` (aqs_evaluator.py lines 73-83); the
in-place mutation is modelled by returning the updated record. -/
def TokenMetrics.calculate_cost (self : TokenMetrics) (model_name : String) : TokenMetrics :=
  let pricing := pricingFor model_name
  let input_cost := (self.input_tokens : ℚ) / 1000000 * pricing.input
  let output_cost := (self.output_tokens : ℚ) / 1000000 * pricing.output
  { self with
      input_cost := input_cost,
      output_cost := output_cost,
      total_cost := input_cost + output_cost }

theorem pricingFor_nonneg (m : String) :
    0 ≤ (pricingFor m).input ∧ 0 ≤ (pricingFor m).output := by
  unfold pricingFor
  simp only [List.lookup, MODEL_PRICING]
  repeat' split
  all_goals simp_all [DEFAULT_PRICING] <;> norm_num

/-- Claim C7: `TokenMetrics.calculate_cost` sets
input_cost = input_tokens/1e6 × input price and
output_cost = output_tokens/1e6 × output price, with
total_cost = input_cost + output_cost exactly; a model name outside the
pricing table uses the default rate (0.10 in / 0.40 out per 1M tokens), and
costs are non-negative for non-negative token counts. -/
theorem calculate_cost_spec (tm : TokenMetrics) (model_name : String) :
    (tm.calculate_cost model_name).input_cost =
        (tm.input_tokens : ℚ) / 1000000 * (pricingFor model_name).input ∧
    (tm.calculate_cost model_name).output_cost =
        (tm.output_tokens : ℚ) / 1000000 * (pricingFor model_name).output ∧
    (tm.calculate_cost model_name).total_cost =
        (tm.calculate_cost model_name).input_cost +
          (tm.calculate_cost model_name).output_cost ∧
    (model_name ∉ MODEL_PRICING.map Prod.fst → pricingFor model_name = DEFAULT_PRICING) ∧
    (0 ≤ tm.input_tokens → 0 ≤ tm.output_tokens →
      0 ≤ (tm.calculate_cost model_name).input_cost ∧
      0 ≤ (tm.calculate_cost model_name).output_cost ∧
      0 ≤ (tm.calculate_cost model_name).total_cost) := by
  refine ⟨rfl, rfl, rfl, ?_, ?_⟩
  · intro hmem
    simp only [List.map, MODEL_PRICING, List.mem_cons, List.not_mem_nil, or_false,
      not_or] at hmem
    obtain ⟨h1, h2, h3, h4⟩ := hmem
    have e1 : (model_name == "gemini-2.0-flash") = false := beq_eq_false_iff_ne.mpr h1
    have e2 : (model_name == "gemini-2.5-flash") = false := beq_eq_false_iff_ne.mpr h2
    have e3 : (model_name == "gemini-3-pro-preview") = false := beq_eq_false_iff_ne.mpr h3
    have e4 : (model_name == "gemini-3-flash-preview") = false := beq_eq_false_iff_ne.mpr h4
    simp [pricingFor, List.lookup, MODEL_PRICING, e1, e2, e3, e4]
  · intro hin hout
    have hp := pricingFor_nonneg model_name
    have hi : 0 ≤ (tm.input_tokens : ℚ) / 1000000 * (pricingFor model_name).input := by
      apply mul_nonneg _ hp.1
      apply div_nonneg _ (by norm_num)
      exact_mod_cast hin
    have ho : 0 ≤ (tm.output_tokens : ℚ) / 1000000 * (pricingFor model_name).output := by
      apply mul_nonneg _ hp.2
      apply div_nonneg _ (by norm_num)
      exact_mod_cast hout
    exact ⟨hi, ho, add_nonneg hi ho⟩

/-- Witness for C7: zero metrics with a model name outside the pricing
table — the default rate applies and all costs are non-negative. -/
theorem calculate_cost_spec_witness :
    pricingFor "unknown-model" = DEFAULT_PRICING ∧
    0 ≤ (TokenMetrics.calculate_cost { input_tokens := 3, output_tokens := 7 }
          "unknown-model").total_cost :=
  ⟨(calculate_cost_spec { input_tokens := 3, output_tokens := 7 } "unknown-model").2.2.2.1
      (by decide),
   ((calculate_cost_spec { input_tokens := 3, output_tokens := 7 } "unknown-model").2.2.2.2
      (by decide) (by decide)).2.2⟩

/-- Single-character python `str.replace`: replaces every occurrence of the
character `a` by `b` (the patterns in `_get_checkpoint_path` are single
characters, so `str.replace` acts character-wise). -/
def replaceChar (a b : Char) (s : List Char) : List Char :=
  s.map (fun c => if c = a then b else c)

/-- Embeds `CheckpointManager._get_checkpoint_path` (checkpoint_manager.py
lines 27-31), producing the checkpoint file name
`{safe_model}_{safe_course}_checkpoint.json`; the directory part is the same
for every key and is omitted. -/
def checkpointFileName (model_name course_id : List Char) : List Char :=
  let safe_model := replaceChar ':' '_' (replaceChar '/' '_' model_name)
  let safe_course := replaceChar '/' '_' course_id
  safe_model ++ '_' :: (safe_course ++ ("_checkpoint.json").toList)

/-- Counterexample to C8: the distinct keys (model "a", course "b_c") and
(model "a_b", course "c") map to the same checkpoint file name
"a_b_c_checkpoint.json". -/
theorem checkpoint_path_collision :
    checkpointFileName ("a").toList ("b_c").toList =
      checkpointFileName ("a_b").toList ("c").toList ∧
    (("a").toList, ("b_c").toList) ≠ (("a_b").toList, ("c").toList) := by
  constructor
  · decide
  · decide

theorem replaceChar_id {a : Char} (b : Char) {s : List Char} (h : a ∉ s) :
    replaceChar a b s = s := by
  unfold replaceChar
  conv_rhs => rw [← List.map_id s]
  apply List.map_congr_left
  intro c hc
  have : c ≠ a := fun he => h (he ▸ hc)
  simp [this]

theorem append_sep_inj {α : Type} [DecidableEq α] {sep : α} :
    ∀ {a₁ a₂ b₁ b₂ : List α}, sep ∉ a₁ → sep ∉ a₂ →
      a₁ ++ sep :: b₁ = a₂ ++ sep :: b₂ → a₁ = a₂ ∧ b₁ = b₂ := by
  intro a₁
  induction a₁ with
  | nil =>
    intro a₂ b₁ b₂ _ h₂ h
    cases a₂ with
    | nil => simpa using h
    | cons x xs =>
      simp only [List.nil_append, List.cons_append, List.cons.injEq] at h
      exact absurd (h.1 ▸ List.mem_cons_self x xs) h₂
  | cons x xs ih =>
    intro a₂ b₁ b₂ h₁ h₂ h
    cases a₂ with
    | nil =>
      simp only [List.nil_append, List.cons_append, List.cons.injEq] at h
      exact absurd (h.1 ▸ List.mem_cons_self x xs) (h.1 ▸ h₁)
    | cons y ys =>
      simp only [List.cons_append, List.cons.injEq] at h
      obtain ⟨rfl, h'⟩ := h
      have h₁' : sep ∉ xs := fun hm => h₁ (List.mem_cons_of_mem _ hm)
      have h₂' : sep ∉ ys := fun hm => h₂ (List.mem_cons_of_mem _ hm)
      obtain ⟨he, hb⟩ := ih h₁' h₂' h'
      exact ⟨by rw [he], hb⟩

/-- Claim C8, amended: checkpoint file names are collision-free only on the
restricted key space — whenever both model names contain none of the
characters replaced or used as separators ('_', '/', ':') and both course
ids contain no '/', equal file names force equal (model, course) pairs. -/
theorem checkpointFileName_inj (m₁ m₂ c₁ c₂ : List Char)
    (hm₁ : ∀ ch ∈ m₁, ch ≠ '_' ∧ ch ≠ '/' ∧ ch ≠ ':')
    (hm₂ : ∀ ch ∈ m₂, ch ≠ '_' ∧ ch ≠ '/' ∧ ch ≠ ':')
    (hc₁ : '/' ∉ c₁) (hc₂ : '/' ∉ c₂)
    (h : checkpointFileName m₁ c₁ = checkpointFileName m₂ c₂) :
    m₁ = m₂ ∧ c₁ = c₂ := by
  have e₁ : replaceChar ':' '_' (replaceChar '/' '_' m₁) = m₁ := by
    rw [replaceChar_id _ (fun hm => ((hm₁ _ hm).2.1 rfl).elim),
      replaceChar_id _ (fun hm => ((hm₁ _ hm).2.2 rfl).elim)]
  have e₂ : replaceChar ':' '_' (replaceChar '/' '_' m₂) = m₂ := by
    rw [replaceChar_id _ (fun hm => ((hm₂ _ hm).2.1 rfl).elim),
      replaceChar_id _ (fun hm => ((hm₂ _ hm).2.2 rfl).elim)]
  have e₃ : replaceChar '/' '_' c₁ = c₁ := replaceChar_id _ hc₁
  have e₄ : replaceChar '/' '_' c₂ = c₂ := replaceChar_id _ hc₂
  unfold checkpointFileName at h
  rw [e₁, e₂, e₃, e₄] at h
  have hu₁ : '_' ∉ m₁ := fun hm => (hm₁ _ hm).1 rfl
  have hu₂ : '_' ∉ m₂ := fun hm => (hm₂ _ hm).1 rfl
  obtain ⟨hm, hrest⟩ := append_sep_inj hu₁ hu₂ h
  refine ⟨hm, ?_⟩
  exact List.append_cancel_right hrest

/-- Witness for the amended C8: concrete clean model names with a course id
containing underscores still give injectivity. -/
theorem checkpointFileName_inj_witness :
    ("gemini-2.0-flash").toList = ("gemini-2.0-flash").toList ∧
    ("do_1139556").toList = ("do_1139556").toList :=
  checkpointFileName_inj _ _ _ _ (by decide) (by decide) (by decide) (by decide) (by decide)

/-- State of the per-course evaluation loop of `evaluate_single_course`
(main.py lines 367-462): `calls` records, in order, the assessments for
which an Analysis Service call was issued; `completed` is the
completed-assessment list (the one persisted in the checkpoint after every
success); `succ` records the names newly completed during this run. -/
structure RunState where
  calls : List String
  completed : List String
  succ : List String
deriving Repr

/-- One pass of the assessment loop in `evaluate_single_course` (main.py
lines 369-462): an assessment whose name is in the completed list is
skipped before any processing; otherwise `evaluate_assessment` issues its
single Analysis Service call and, when no exception escapes (`ok i`), the
name is appended to the completed list (and the checkpoint saved); an
exception is caught and the loop continues. -/
def processAssessments (ok : ℕ → Bool) : ℕ → List String → RunState → RunState
  | _, [], st => st
  | i, name :: rest, st =>
    if name ∈ st.completed then
      processAssessments ok (i + 1) rest st
    else
      processAssessments ok (i + 1) rest
        { calls := st.calls ++ [name],
          completed := if ok i then st.completed ++ [name] else st.completed,
          succ := if ok i then st.succ ++ [name] else st.succ }

/-- A run of `evaluate_single_course` over the course's assessment names,
starting from the completed list loaded from the checkpoint. -/
def runCourse (ok : ℕ → Bool) (completed₀ names : List String) : RunState :=
  processAssessments ok 0 names ⟨[], completed₀, []⟩

theorem process_calls_not_mem (ok : ℕ → Bool) (n : String) :
    ∀ (names : List String) (i : ℕ) (st : RunState),
      n ∈ st.completed → n ∉ st.calls →
      n ∉ (processAssessments ok i names st).calls := by
  intro names
  induction names with
  | nil => intro i st h1 h2; simpa [processAssessments] using h2
  | cons name rest ih =>
    intro i st h1 h2
    by_cases hmem : name ∈ st.completed
    · rw [processAssessments, if_pos hmem]
      exact ih _ _ h1 h2
    · rw [processAssessments, if_neg hmem]
      have hne : n ≠ name := fun he => hmem (he ▸ h1)
      apply ih
      · by_cases hok : ok i <;> simp [hok, h1]
      · simp [h2, hne]

theorem process_completed_append (ok : ℕ → Bool) :
    ∀ (names : List String) (i : ℕ) (st : RunState) (c₀ : List String),
      st.completed = c₀ ++ st.succ →
      (processAssessments ok i names st).completed =
        c₀ ++ (processAssessments ok i names st).succ := by
  intro names
  induction names with
  | nil => intro i st c₀ h; simpa [processAssessments] using h
  | cons name rest ih =>
    intro i st c₀ h
    by_cases hmem : name ∈ st.completed
    · rw [processAssessments, if_pos hmem]
      exact ih _ _ _ h
    · rw [processAssessments, if_neg hmem]
      apply ih
      by_cases hok : ok i <;> simp [hok, h, List.append_assoc]

theorem process_count_invariant (ok : ℕ → Bool) (n : String) :
    ∀ (names : List String) (i : ℕ) (st : RunState),
      List.count n st.succ + (if n ∈ st.completed then 0 else 1) ≤ 1 →
      List.count n (processAssessments ok i names st).succ +
        (if n ∈ (processAssessments ok i names st).completed then 0 else 1) ≤ 1 := by
  intro names
  induction names with
  | nil => intro i st h; simpa [processAssessments] using h
  | cons name rest ih =>
    intro i st h
    by_cases hmem : name ∈ st.completed
    · rw [processAssessments, if_pos hmem]
      exact ih _ _ h
    · rw [processAssessments, if_neg hmem]
      apply ih
      by_cases hok : ok i
      · by_cases hn : name = n
        · subst hn
          rw [if_neg hmem] at h
          have h0 : List.count name st.succ = 0 := by omega
          simp [hok, List.count_append, h0]
        · have hn' : n ≠ name := fun he => hn he.symm
          have hcount : List.count n (st.succ ++ [name]) = List.count n st.succ := by
            simp [List.count_append, List.count_cons, hn]
          have hmem' : (n ∈ st.completed ++ [name]) ↔ n ∈ st.completed := by
            simp [List.mem_append, hn']
          simp only [hok, if_true, hcount]
          rcases Classical.em (n ∈ st.completed) with hc | hc
          · rw [if_pos (hmem'.mpr hc)]
            rw [if_pos hc] at h
            exact h
          · rw [if_neg (fun hx => hc (hmem'.mp hx))]
            rw [if_neg hc] at h
            exact h
      · simpa [hok] using h

theorem process_count_stable (ok : ℕ → Bool) (n : String) :
    ∀ (names : List String) (i : ℕ) (st : RunState),
      n ∈ st.completed →
      List.count n (processAssessments ok i names st).succ = List.count n st.succ := by
  intro names
  induction names with
  | nil => intro i st _; simp [processAssessments]
  | cons name rest ih =>
    intro i st h
    by_cases hmem : name ∈ st.completed
    · rw [processAssessments, if_pos hmem]
      exact ih _ _ h
    · rw [processAssessments, if_neg hmem]
      have hne : name ≠ n := fun he => hmem (he ▸ h)
      have : List.count n (if ok i then st.succ ++ [name] else st.succ) =
          List.count n st.succ := by
        by_cases hok : ok i <;> simp [hok, List.count_append, List.count_cons, hne]
      rw [ih]
      · exact this
      · by_cases hok : ok i <;> simp [hok, h]

/-- Claim C5: an assessment whose name is in the loaded checkpoint's
completed list is skipped before any processing — no Analysis Service call
is made for it — the completed list only ever grows by this run's
successes, and across a restart that resumes from the saved completed list
any name is successfully evaluated at most once in total. -/
theorem checkpoint_skip_and_at_most_once
    (ok₁ ok₂ : ℕ → Bool) (completed₀ names₁ names₂ : List String) (n : String) :
    (n ∈ completed₀ → n ∉ (runCourse ok₁ completed₀ names₁).calls) ∧
    (runCourse ok₁ completed₀ names₁).completed =
      completed₀ ++ (runCourse ok₁ completed₀ names₁).succ ∧
    List.count n ((runCourse ok₁ completed₀ names₁).succ ++
      (runCourse ok₂ (runCourse ok₁ completed₀ names₁).completed names₂).succ) ≤ 1 := by
  refine ⟨?_, ?_, ?_⟩
  · intro h
    exact process_calls_not_mem ok₁ n names₁ 0 ⟨[], completed₀, []⟩ h (by simp)
  · exact process_completed_append ok₁ names₁ 0 ⟨[], completed₀, []⟩ completed₀ (by simp)
  · have hinv₁ : List.count n (runCourse ok₁ completed₀ names₁).succ +
        (if n ∈ (runCourse ok₁ completed₀ names₁).completed then 0 else 1) ≤ 1 :=
      process_count_invariant ok₁ n names₁ 0 ⟨[], completed₀, []⟩
        (by by_cases h : n ∈ completed₀ <;> simp [h])
    set r₁ := runCourse ok₁ completed₀ names₁ with hr₁
    rw [List.count_append]
    by_cases hc : n ∈ r₁.completed
    · have h₂ : List.count n (runCourse ok₂ r₁.completed names₂).succ = 0 := by
        simpa using process_count_stable ok₂ n names₂ 0 ⟨[], r₁.completed, []⟩ hc
      rw [if_pos hc] at hinv₁
      omega
    · have hap : r₁.completed = completed₀ ++ r₁.succ :=
        process_completed_append ok₁ names₁ 0 ⟨[], completed₀, []⟩ completed₀ (by simp)
      have h₁ : List.count n r₁.succ = 0 := by
        apply List.count_eq_zero_of_not_mem
        intro hmem
        exact hc (by rw [hap]; exact List.mem_append_right _ hmem)
      have hinv₂ : List.count n (runCourse ok₂ r₁.completed names₂).succ +
          (if n ∈ (runCourse ok₂ r₁.completed names₂).completed then 0 else 1) ≤ 1 :=
        process_count_invariant ok₂ n names₂ 0 ⟨[], r₁.completed, []⟩ (by simp [hc])
      rw [if_neg hc] at hinv₁
      split_ifs at hinv₂ <;> omega

/-- Witness for C5: with checkpointed assessment "A", a run over
["A", "B"] never calls the service for "A", and chaining a second run from
the resulting checkpoint completes "B" exactly once overall. -/
theorem checkpoint_skip_and_at_most_once_witness :
    ("A" ∉ (runCourse (fun _ => true) ["A"] ["A", "B"]).calls) ∧
    List.count "B" ((runCourse (fun _ => true) ["A"] ["A", "B"]).succ ++
      (runCourse (fun _ => true)
        (runCourse (fun _ => true) ["A"] ["A", "B"]).completed ["A", "B"]).succ) ≤ 1 :=
  ⟨(checkpoint_skip_and_at_most_once (fun _ => true) (fun _ => true)
      ["A"] ["A", "B"] ["A", "B"] "A").1 (by decide),
   (checkpoint_skip_and_at_most_once (fun _ => true) (fun _ => true)
      ["A"] ["A", "B"] ["A", "B"] "B").2.2⟩

/-- The `course_fit` sub-dictionary of the parsed analysis response.  In
`difficulty_appropriateness_score` the outer Option is key presence and the
inner Option a JSON null (the `None` the code guards against). -/
structure FitDict where
  course_fit_score : Option ℚ := none
  course_fit_status : Option String := none
  content_coverage_score : Option ℚ := none
  objective_alignment_score : Option ℚ := none
  difficulty_appropriateness_score : Option (Option ℚ) := none
  completeness_score : Option ℚ := none

/-- The parsed combined-analysis response (`combined_result` in
`evaluate_assessment`): a JSON dictionary with optional sections, or the
error marker `{"error": str(e)}` produced by `_call_llm` on failure. -/
structure CombinedDict where
  error : Option String := none
  difficulty_analysis : Option DifficultyDict := none
  blooms_taxonomy : Option BloomsDict := none
  course_fit : Option FitDict := none
  quality_tier_reasoning : Option String := none

/-- Embeds `AQSEvaluator._call_llm` (aqs_evaluator.py lines 743-792) at the
Analysis Service boundary: `outcome` is either the exception raised by the
transport call (as its message) or the parsed JSON of the response text
(standing for `_extract_json(response.text)`) with the usage metadata.  On
exception the marker dict, fresh metrics and success = false are returned
instead of raising. -/
def call_llm (outcome : Except String (CombinedDict × TokenMetrics)) :
    CombinedDict × TokenMetrics × Bool :=
  match outcome with
  | .ok (parsed, usage) => (parsed, usage, true)
  | .error e => ({ error := some e }, {}, false)

/-- Prompt-configuration values read from the YAML file by `PromptManager`
(external configuration): the Bloom weight table, the `few_questions`
threshold and warning template, and the `difficulty_mismatch` threshold and
warning template (a template may render to the empty string when missing,
which the code treats as "no warning"). -/
structure PromptConfig where
  bloomsWeights : BloomsLevel → ℚ
  fewQuestionsThreshold : ℤ
  fewQuestionsWarning : ℤ → String
  mismatchThreshold : ℚ
  mismatchWarning : ℚ → String

/-- The fields of an `Assessment` consulted by `evaluate_assessment` for
edge-case checks; content fields used only to build the prompt text are
external to the scoring logic. -/
structure AssessmentStub where
  name : String
  assessment_type : String
  total_questions : ℤ
  questions_count : ℕ

/-- Embeds the `TokenEvaluationMetrics` dataclass (aqs_evaluator.py lines
86-128); wall-clock timing fields are side effects and omitted. -/
structure TokenEvaluationMetrics where
  overall_tokens : TokenMetrics := {}
  total_input_tokens : ℤ := 0
  total_output_tokens : ℤ := 0
  total_thinking_tokens : ℤ := 0
  total_cached_tokens : ℤ := 0
  total_tokens : ℤ := 0
  total_input_cost : ℚ := 0
  total_output_cost : ℚ := 0
  total_cost : ℚ := 0
  llm_calls : ℕ := 0
  successful_calls : ℕ := 0
  failed_calls : ℕ := 0

/-- Embeds `TokenEvaluationMetrics.add_tokens` (lines 115-117). -/
def TokenEvaluationMetrics.add_tokens (m : TokenEvaluationMetrics)
    (t : TokenMetrics) : TokenEvaluationMetrics :=
  { m with overall_tokens := m.overall_tokens.add t }

/-- Embeds `TokenEvaluationMetrics.calculate_total_cost` (lines 119-128). -/
def TokenEvaluationMetrics.calculate_total_cost
    (m : TokenEvaluationMetrics) : TokenEvaluationMetrics :=
  { m with
      total_input_tokens := m.overall_tokens.input_tokens,
      total_output_tokens := m.overall_tokens.output_tokens,
      total_thinking_tokens := m.overall_tokens.thinking_tokens,
      total_cached_tokens := m.overall_tokens.cached_tokens,
      total_tokens := m.overall_tokens.total_tokens,
      total_input_cost := m.overall_tokens.input_cost,
      total_output_cost := m.overall_tokens.output_cost,
      total_cost := m.overall_tokens.total_cost }

/-- The fields of `AQSResult` (aqs_evaluator.py lines 217-247) that the
scoring and error-handling logic writes; rationale strings and per-question
classifications are copied verbatim from the response and not needed by any
claim. -/
structure AQSResult where
  assessment_name : String := ""
  assessment_type : String := ""
  difficulty_level : String := ""
  course_fit_score : ℚ := 0
  course_fit_status : String := ""
  aqs_score : ℚ := 0
  AQS_quality_tier : String := ""
  quality_tier_reasoning : String := ""
  confidence_flags : List String := []
  warnings : List String := []
  metrics : TokenEvaluationMetrics := {}

/-- Embeds `AQSEvaluator.evaluate_assessment` (aqs_evaluator.py lines
329-502) against the Analysis Service boundary: `outcome` describes the
single combined `_call_llm` call; prompt construction and timing are
external side effects.  The steps mirror the source order: extend warnings
with the loader's, run `_check_edge_cases`, make the single call, count it
and record a failure warning, extract the sections, handle standalone
course-fit and `_check_difficulty_mismatch`, compute the final AQS and
tier, and finalize metrics. -/
def evaluate_assessment (cfg : PromptConfig) (model_name : String)
    (course_warnings : List String) (assessment : AssessmentStub)
    (is_standalone : Bool)
    (outcome : Except String (CombinedDict × TokenMetrics)) : AQSResult :=
  let metrics0 : TokenEvaluationMetrics := {}
  let r0 : AQSResult :=
    { assessment_name := assessment.name,
      assessment_type := assessment.assessment_type }
  let r0 := { r0 with warnings := r0.warnings ++ course_warnings }
  -- _check_edge_cases (lines 544-563)
  let fewHit := assessment.total_questions < cfg.fewQuestionsThreshold
  let fewMsg := cfg.fewQuestionsWarning assessment.total_questions
  let fewWarnings := if fewHit then (if fewMsg ≠ "" then [fewMsg] else []) else []
  let fewFlags := if fewHit then ["Low question count"] else []
  let noqWarnings :=
    if assessment.questions_count = 0 then
      ["No question details available - evaluation based on metadata only"]
    else []
  let noqFlags := if assessment.questions_count = 0 then ["Missing question details"] else []
  let r1 :=
    { r0 with
        warnings := r0.warnings ++ fewWarnings ++ noqWarnings,
        confidence_flags := r0.confidence_flags ++ fewFlags ++ noqFlags }
  -- single combined LLM call (lines 390-401)
  let out := call_llm outcome
  let combined_result := out.1
  let tokens := out.2.1.calculate_cost model_name
  let success := out.2.2
  let metrics1 := metrics0.add_tokens tokens
  let metrics2 := { metrics1 with llm_calls := metrics1.llm_calls + 1 }
  let metrics3 :=
    if success then { metrics2 with successful_calls := metrics2.successful_calls + 1 }
    else { metrics2 with failed_calls := metrics2.failed_calls + 1 }
  let r2 :=
    if success then r1
    else
      match combined_result.error with
      | some e => { r1 with warnings := r1.warnings ++ ["LLM Analysis Failed: " ++ e] }
      | none => r1
  -- difficulty and taxonomy extraction (lines 403-449)
  let difficulty_result := combined_result.difficulty_analysis.getD {}
  let r3 := { r2 with difficulty_level := difficulty_result.difficulty_level.getD "Intermediate" }
  let blooms_result := combined_result.blooms_taxonomy.getD {}
  -- course fit extraction and mismatch check (lines 451-477)
  let r4 :=
    if is_standalone then
      { r3 with
          course_fit_score := 0,
          course_fit_status := "Not Applicable",
          confidence_flags :=
            r3.confidence_flags ++ ["Standalone assessment - course fit not evaluated"] }
    else
      let fit_result := combined_result.course_fit.getD {}
      let r :=
        { r3 with
            course_fit_score := fit_result.course_fit_score.getD 0,
            course_fit_status := fit_result.course_fit_status.getD "" }
      let appropriateness :=
        (fit_result.difficulty_appropriateness_score.getD (some 100)).getD 100
      let alert := cfg.mismatchWarning (100 - appropriateness)
      if appropriateness < 100 - cfg.mismatchThreshold then
        (if alert ≠ "" then { r with warnings := r.warnings ++ [alert] } else r)
      else r
  -- final AQS, tier and reasoning (lines 479-491)
  let aqs := compute_final_aqs cfg.bloomsWeights difficulty_result blooms_result
    r4.course_fit_score is_standalone
  let tier := get_aqs_quality_tier aqs
  let reasoning0 := combined_result.quality_tier_reasoning.getD ""
  let reasoning :=
    if reasoning0 = "" then
      "Assessment score of " ++ toString aqs ++ " falls within the " ++ tier ++ " range."
    else reasoning0
  -- metrics finalization (lines 493-501)
  let metricsF := metrics3.calculate_total_cost
  { r4 with
      aqs_score := aqs,
      AQS_quality_tier := tier,
      quality_tier_reasoning := reasoning,
      metrics := metricsF }

set_option maxHeartbeats 1000000 in
/-- Claim C6: when the single Analysis Service call raises,
`evaluate_assessment` still returns a populated result: the exception is
caught inside `_call_llm` (error marker, empty metrics, success false
instead of raising), the call is counted as one failed call, the failure
message is recorded in the warnings, and scoring proceeds on empty
dictionaries — all-default sub-scores and course fit 0. -/
theorem evaluate_assessment_error_path (cfg : PromptConfig) (model_name : String)
    (course_warnings : List String) (assessment : AssessmentStub)
    (is_standalone : Bool) (e : String) :
    (evaluate_assessment cfg model_name course_warnings assessment is_standalone
        (.error e)).metrics.llm_calls = 1 ∧
    (evaluate_assessment cfg model_name course_warnings assessment is_standalone
        (.error e)).metrics.failed_calls = 1 ∧
    (evaluate_assessment cfg model_name course_warnings assessment is_standalone
        (.error e)).metrics.successful_calls = 0 ∧
    ("LLM Analysis Failed: " ++ e) ∈
      (evaluate_assessment cfg model_name course_warnings assessment is_standalone
        (.error e)).warnings ∧
    (evaluate_assessment cfg model_name course_warnings assessment is_standalone
        (.error e)).aqs_score =
      compute_final_aqs cfg.bloomsWeights {} {} 0 is_standalone ∧
    (evaluate_assessment cfg model_name course_warnings assessment is_standalone
        (.error e)).AQS_quality_tier =
      get_aqs_quality_tier
        (evaluate_assessment cfg model_name course_warnings assessment is_standalone
          (.error e)).aqs_score ∧
    (evaluate_assessment cfg model_name course_warnings assessment is_standalone
        (.error e)).assessment_name = assessment.name := by
  refine ⟨rfl, rfl, rfl, ?_, ?_, ?_, ?_⟩
  · simp only [evaluate_assessment, call_llm]
    cases is_standalone <;> split_ifs <;> simp_all [List.mem_append]
  · simp only [evaluate_assessment, call_llm]
    try cases is_standalone <;> first | rfl | (split_ifs <;> rfl)
  · simp only [evaluate_assessment, call_llm]
  · simp only [evaluate_assessment, call_llm]
    try cases is_standalone <;> first | rfl | (split_ifs <;> rfl)

deriving instance DecidableEq for Except

/-- A subtitle file as the loader sees it: file name plus the outcome of
`_parse_vtt_file` at the caller's try/except — an exception message or the
extracted text (possibly empty). -/
structure VttEntry where
  name : String
  outcome : Except String String
deriving DecidableEq, Repr

/-- A module directory together with the subtitle files found anywhere under
its subtree (`item.glob("**/*.vtt")`), in glob order. -/
structure ModuleDir where
  dirName : String
  vtts : List VttEntry
deriving DecidableEq, Repr

/-- A PDF file: name, outcome of `_parse_pdf_file` (its internal per-page
warnings are collapsed into the single read-error message), and the first
module-directory name appearing in its path, if any. -/
structure PdfEntry where
  name : String
  outcome : Except String String
  moduleKey : Option String
deriving DecidableEq, Repr

/-- What `_load_assessment_from_dir` (data_loader.py lines 416-430) finds in
one assessment folder: no data files, a file whose parsing raises, or a
parsed assessment (named). -/
inductive AssessmentParse
  | noFiles
  | failed (fileName msg : String)
  | parsed (assessmentName : String)
deriving DecidableEq, Repr

/-- The observations `load_course` makes of one course directory, with
directory listings already in the sorted/deny-list-filtered order the
source iterates them. -/
structure CourseInput where
  dirExists : Bool
  metadata : Option (Except String String)
  courseVtts : List VttEntry
  modules : List ModuleDir
  contentModules : List ModuleDir
  pdfs : List PdfEntry
  assessmentsDirExists : Bool
  finalAssessment : Option AssessmentParse
  quizzes : List (String × AssessmentParse)
deriving DecidableEq, Repr

/-- Concatenation of a list of warning lists, in order. -/
def concatAll (xs : List (List String)) : List String := xs.foldr (· ++ ·) []

/-- The warnings of the `try/except` around `_parse_vtt_file` for each
subtitle file, in order (data_loader.py lines 184-190, 207-214). -/
def vttWarnings (vtts : List VttEntry) : List String :=
  concatAll (vtts.map (fun v =>
    match v.outcome with
    | .error e => ["Error reading VTT file " ++ v.name ++ ": " ++ e]
    | .ok _ => []))

/-- The non-empty transcripts successfully extracted from a list of subtitle
files (only truthy texts are appended to `transcripts`). -/
def vttOkTexts (vtts : List VttEntry) : List String :=
  concatAll (vtts.map (fun v =>
    match v.outcome with
    | .ok t => if t ≠ "" then [t] else []
    | .error _ => []))

/-- Embeds the warning-relevant behaviour of `_load_metadata` (data_loader.py
lines 146-174): absent file or JSON error yield a warning and no metadata. -/
def loadMetadataDelta : Option (Except String String) → Option String × List String
  | none => (none, ["Missing metadata.json - reduced accuracy"])
  | some (.error e) => (none, ["Error parsing metadata.json: " ++ e])
  | some (.ok name) => (some name, [])

/-- The warnings appended by `_load_course_content` (data_loader.py lines
176-285), in execution order: course-level subtitle errors, module subtree
subtitle errors (Course/ then Course/Content/), the no-transcripts warning,
per-PDF errors, and the parsed-PDF count note. -/
def contentWarnings (inp : CourseInput) : List String :=
  let transcripts :=
    vttOkTexts inp.courseVtts ++
    concatAll (inp.modules.map (fun m => vttOkTexts m.vtts)) ++
    concatAll (inp.contentModules.map (fun m => vttOkTexts m.vtts))
  let pdfTexts :=
    concatAll (inp.pdfs.map (fun p =>
      match p.outcome with
      | .ok t => if t ≠ "" then [t] else []
      | .error _ => []))
  vttWarnings inp.courseVtts ++
  concatAll (inp.modules.map (fun m => vttWarnings m.vtts)) ++
  concatAll (inp.contentModules.map (fun m => vttWarnings m.vtts)) ++
  (if transcripts.isEmpty then
    ["No transcripts found - reduced accuracy for content analysis"] else []) ++
  concatAll (inp.pdfs.map (fun p =>
    match p.outcome with
    | .error e => ["Error parsing PDF file " ++ p.name ++ ": " ++ e]
    | .ok _ => [])) ++
  (if ¬ pdfTexts.isEmpty then
    ["Successfully parsed " ++ toString pdfTexts.length ++ " PDF files"] else [])

/-- The warnings of one assessment-folder parse (data_loader.py lines
416-489). -/
def assessmentParseWarnings (dirName : String) : AssessmentParse → List String
  | .noFiles => ["No assessment files found in " ++ dirName]
  | .failed fileName msg => ["Error parsing " ++ fileName ++ ": " ++ msg]
  | .parsed _ => []

/-- The assessment name produced by one folder parse, if any. -/
def assessmentParseName : AssessmentParse → List String
  | .parsed n => [n]
  | _ => []

/-- Embeds `_load_assessments` (data_loader.py lines 348-414): loaded
assessment names and appended warnings, in execution order. -/
def assessmentsResult (inp : CourseInput) : List String × List String :=
  if ¬ inp.assessmentsDirExists then ([], ["No Assessments directory found"])
  else
    let finalNames := (inp.finalAssessment.map assessmentParseName).getD []
    let finalWarns :=
      (inp.finalAssessment.map (assessmentParseWarnings "Final_Assessment")).getD []
    let quizNames := concatAll (inp.quizzes.map (fun q => assessmentParseName q.2))
    let quizWarns :=
      concatAll (inp.quizzes.map (fun q => assessmentParseWarnings q.1 q.2))
    let names := finalNames ++ quizNames
    (names,
      finalWarns ++ quizWarns ++
        (if names.isEmpty then ["No assessments found in course directory"] else []))

/-- The course-level data `load_course` returns, restricted to the fields
the claims consult. -/
structure CourseDataM where
  name : String
  assessments : List String
  warnings : List String
deriving DecidableEq, Repr

/-- Embeds `AssessmentDataLoader.load_course` (data_loader.py lines 102-144)
with the loader's mutable `self.warnings` made explicit: `w₀` is the
accumulated warning list at call time (set to `[]` once in `__init__` and
never reset), and the second component of the result is the new accumulated
list; the returned `CourseData.warnings` is `self.warnings.copy()`, the
full accumulated list. -/
def load_course (w₀ : List String) (course_id : String) (inp : CourseInput) :
    Option CourseDataM × List String :=
  if ¬ inp.dirExists then
    (none, w₀ ++ ["Course directory not found: " ++ course_id])
  else
    let md := loadMetadataDelta inp.metadata
    match md.1 with
    | none => (none, w₀ ++ md.2)
    | some name =>
      let w₂ := (w₀ ++ md.2) ++ contentWarnings inp
      let ar := assessmentsResult inp
      let w₃ := w₂ ++ ar.2
      (some { name := name, assessments := ar.1, warnings := w₃ }, w₃)

theorem load_course_extends (w : List String) (course_id : String) (inp : CourseInput) :
    ∃ d, (load_course w course_id inp).2 = w ++ d := by
  simp only [load_course]
  split_ifs
  · cases hm : (loadMetadataDelta inp.metadata).1 with
    | none => simp only [hm]; exact ⟨_, rfl⟩
    | some name =>
        simp only [hm]
        refine ⟨(loadMetadataDelta inp.metadata).2 ++
          (contentWarnings inp ++ (assessmentsResult inp).2), ?_⟩
        simp [List.append_assoc]
  · exact ⟨_, rfl⟩

theorem load_course_some_warnings (w : List String) (course_id : String)
    (inp : CourseInput) (cd : CourseDataM)
    (h : (load_course w course_id inp).1 = some cd) :
    cd.warnings = (load_course w course_id inp).2 := by
  simp only [load_course] at h ⊢
  split_ifs at h ⊢
  · cases hm : (loadMetadataDelta inp.metadata).1 with
    | none => simp only [hm] at h; exact absurd h (by simp)
    | some name =>
        simp only [hm] at h ⊢
        simp only [Option.some.injEq] at h
        rw [← h]

/-- Claim C10: `AssessmentDataLoader` accumulates warnings across calls
without resetting them: for two successive `load_course` calls on the same
loader instance, the second call only appends to the accumulated list, and
whenever it returns course data, the returned `CourseData.warnings` is the
full accumulated list and therefore contains every warning recorded during
(and before) the first call. -/
theorem load_course_warnings_leak (w₀ : List String) (id₁ id₂ : String)
    (inp₁ inp₂ : CourseInput) :
    (∃ d, (load_course (load_course w₀ id₁ inp₁).2 id₂ inp₂).2 =
        (load_course w₀ id₁ inp₁).2 ++ d) ∧
    (∀ cd, (load_course (load_course w₀ id₁ inp₁).2 id₂ inp₂).1 = some cd →
      cd.warnings = (load_course (load_course w₀ id₁ inp₁).2 id₂ inp₂).2 ∧
      ∀ x ∈ (load_course w₀ id₁ inp₁).2, x ∈ cd.warnings) := by
  refine ⟨load_course_extends _ _ _, ?_⟩
  intro cd h
  refine ⟨load_course_some_warnings _ _ _ _ h, ?_⟩
  intro x hx
  rw [load_course_some_warnings _ _ _ _ h]
  obtain ⟨d, hd⟩ := load_course_extends (load_course w₀ id₁ inp₁).2 id₂ inp₂
  rw [hd]
  exact List.mem_append_left _ hx

/-- A course directory that is absent: the first call records a warning. -/
def sampleInput1 : CourseInput :=
  { dirExists := false, metadata := none, courseVtts := [], modules := [],
    contentModules := [], pdfs := [], assessmentsDirExists := false,
    finalAssessment := none, quizzes := [] }

/-- A well-formed course directory for the second call. -/
def sampleInput2 : CourseInput :=
  { dirExists := true, metadata := some (.ok "Course Two"),
    courseVtts := [⟨"a.vtt", .ok "hello"⟩], modules := [], contentModules := [],
    pdfs := [], assessmentsDirExists := true,
    finalAssessment := some (.parsed "Final Assessment"), quizzes := [] }

/-- Witness for C10: the warning recorded for the missing course "c1" leaks
into the CourseData returned for the subsequently loaded course "c2". -/
theorem load_course_warnings_leak_witness :
    "Course directory not found: c1" ∈
      ({ name := "Course Two", assessments := ["Final Assessment"],
         warnings := ["Course directory not found: c1"] } : CourseDataM).warnings :=
  ((load_course_warnings_leak [] "c1" "c2" sampleInput1 sampleInput2).2
    _ (by decide)).2 _ (by decide)

/-- JSON values as produced by python `json.loads` (an external library
this module calls): numbers are exact rationals; string escapes are limited
to the simple two-character escapes (`\uXXXX` and exponents are not
modelled). -/
inductive JVal
  | null
  | bool (b : Bool)
  | num (q : ℚ)
  | str (s : List Char)
  | arr (xs : List JVal)
  | obj (kvs : List (List Char × JVal))

/-- The ASCII whitespace python's json parser skips between tokens. -/
def jsonWsChars : List Char := [' ', '\t', '\n', '\r']

def jsonWs (c : Char) : Bool := jsonWsChars.contains c

def skipJsonWs (s : List Char) : List Char := s.dropWhile jsonWs

/-- The two-character string escapes, as (escape letter, decoded char). -/
def escPairs : List (Char × Char) :=
  [('"', '"'), ('\\', '\\'), ('/', '/'), ('n', '\n'), ('t', '\t'), ('r', '\r'),
   ('b', Char.ofNat 8), ('f', Char.ofNat 12)]

def escChar (e : Char) : Option Char := escPairs.lookup e

/-- Parse the body of a JSON string after its opening quote, returning the
content and the remainder after the closing quote. -/
def parseStringBody : List Char → Option (List Char × List Char)
  | [] => none
  | '"' :: rest => some ([], rest)
  | '\\' :: e :: rest =>
      match escChar e with
      | some c => (parseStringBody rest).map (fun p => (c :: p.1, p.2))
      | none => none
  | ['\\'] => none
  | c :: rest => (parseStringBody rest).map (fun p => (c :: p.1, p.2))

def digitVal (c : Char) : ℕ := c.toNat - 48

def digitsToNat (ds : List Char) : ℕ := ds.foldl (fun n c => n * 10 + digitVal c) 0

/-- Splits a leading minus sign off a number literal. -/
def splitSign : List Char → Bool × List Char
  | '-' :: r => (true, r)
  | s => (false, s)

/-- Parse a JSON number (integer or simple decimal). -/
def parseNumber (s : List Char) : Option (ℚ × List Char) :=
  let p := splitSign s
  let neg := p.1
  let s₁ := p.2
  let ds := s₁.takeWhile Char.isDigit
  let r₁ := s₁.dropWhile Char.isDigit
  if ds.isEmpty then none
  else
    let intVal : ℚ := (digitsToNat ds : ℚ)
    match r₁ with
    | '.' :: r₂ =>
      let fs := r₂.takeWhile Char.isDigit
      let r₃ := r₂.dropWhile Char.isDigit
      if fs.isEmpty then none
      else
        let v := intVal + (digitsToNat fs : ℚ) / ((10 : ℚ) ^ fs.length)
        some ((if neg then -v else v), r₃)
    | _ => some ((if neg then -intVal else intVal), r₁)

mutual

/-- Parse one JSON value (leading whitespace already skipped); the fuel
bounds recursion depth and is sized generously by `jloads`. -/
def parseValue : ℕ → List Char → Option (JVal × List Char)
  | 0, _ => none
  | Nat.succ fuel, s =>
    match s with
    | [] => none
    | '"' :: rest => (parseStringBody rest).map (fun p => (JVal.str p.1, p.2))
    | '{' :: rest =>
        let t := skipJsonWs rest
        (match t with
         | '}' :: r => some (JVal.obj [], r)
         | _ => (parseMembers fuel t).map (fun p => (JVal.obj p.1, p.2)))
    | '[' :: rest =>
        let t := skipJsonWs rest
        (match t with
         | ']' :: r => some (JVal.arr [], r)
         | _ => (parseElements fuel t).map (fun p => (JVal.arr p.1, p.2)))
    | _ :: _ =>
        if s.take 4 = ("true").toList then some (JVal.bool true, s.drop 4)
        else if s.take 5 = ("false").toList then some (JVal.bool false, s.drop 5)
        else if s.take 4 = ("null").toList then some (JVal.null, s.drop 4)
        else (parseNumber s).map (fun p => (JVal.num p.1, p.2))

/-- Parse the members of an object from the first key on. -/
def parseMembers : ℕ → List Char → Option (List (List Char × JVal) × List Char)
  | 0, _ => none
  | Nat.succ fuel, s =>
    match s with
    | '"' :: rest =>
      (match parseStringBody rest with
       | none => none
       | some (key, r₁) =>
         match skipJsonWs r₁ with
         | ':' :: r₂ =>
           (match parseValue fuel (skipJsonWs r₂) with
            | none => none
            | some (v, r₃) =>
              (match skipJsonWs r₃ with
               | ',' :: r₄ =>
                  (parseMembers fuel (skipJsonWs r₄)).map (fun p => ((key, v) :: p.1, p.2))
               | '}' :: r₄ => some ([(key, v)], r₄)
               | _ => none))
         | _ => none)
    | _ => none

/-- Parse the elements of an array from the first element on. -/
def parseElements : ℕ → List Char → Option (List JVal × List Char)
  | 0, _ => none
  | Nat.succ fuel, s =>
    match parseValue fuel s with
    | none => none
    | some (v, r₁) =>
      match skipJsonWs r₁ with
      | ',' :: r₂ => (parseElements fuel (skipJsonWs r₂)).map (fun p => (v :: p.1, p.2))
      | ']' :: r₂ => some ([v], r₂)
      | _ => none

end

/-- Model of python `json.loads`: parse one value and require only trailing
whitespace; `none` models `json.JSONDecodeError`. -/
def jloads (s : List Char) : Option JVal :=
  match parseValue (2 * s.length + 2) (skipJsonWs s) with
  | some p => if (skipJsonWs p.2).isEmpty then some p.1 else none
  | none => none

/-- ASCII `\s` of python `re` (the unicode extension is not modelled). -/
def reWsChars : List Char := [' ', '\t', '\n', '\r', '\x0b', '\x0c']

def reWs (c : Char) : Bool := reWsChars.contains c

def dropReWs (s : List Char) : List Char := s.dropWhile reWs

/-- Match a literal prefix, returning the remainder. -/
def stripLit : List Char → List Char → Option (List Char)
  | [], s => some s
  | _ :: _, [] => none
  | c :: cs, x :: xs => if x = c then stripLit cs xs else none

/-- Does `\s*` followed by a literal three-backtick fence match here? -/
def fenceCloses (s : List Char) : Bool :=
  (stripLit ("```").toList (dropReWs s)).isSome

/-- The lazy `.*?\}` of the fenced-block regex: extend the capture to the
earliest `}` after which `\s*` and the closing fence match. -/
def lazyFenceEnd (acc : List Char) : List Char → Option (List Char)
  | [] => none
  | c :: rest =>
    if c = '}' ∧ fenceCloses rest then some (acc ++ ['}'])
    else lazyFenceEnd (acc ++ [c]) rest

/-- Match of `` ```(?:json)?\s*(\{.*?\})\s*``` `` (re.DOTALL) anchored at the
start of `s`, returning capture group 1.  The optional `json` and the
greedy `\s*` are deterministic here because backtracking them can never
turn a failure into a success (the next required characters differ). -/
def matchFenceAt (s : List Char) : Option (List Char) :=
  match stripLit ("```").toList s with
  | none => none
  | some t =>
    let t₁ := match stripLit ("json").toList t with
      | some t' => t'
      | none => t
    match dropReWs t₁ with
    | '{' :: rest => lazyFenceEnd ['{'] rest
    | _ => none

/-- `re.search` of the fenced-block pattern: the leftmost anchored match. -/
def fencedSearch : List Char → Option (List Char)
  | [] => none
  | c :: rest =>
    match matchFenceAt (c :: rest) with
    | some g => some g
    | none => fencedSearch rest

def isBrace (c : Char) : Bool := c == '{' || c == '}'

/-- The greedy loop of `\{[^{}]*(?:\{[^{}]*\}[^{}]*)*\}` after the opening
brace and first `[^{}]*` chunk: positioned at a brace (or the end), either
close on `}`, or consume one `\{[^{}]*\}[^{}]*` group and continue.  The
greedy pieces are deterministic: `[^{}]*` can only stop at a brace, and
giving back characters places a non-brace where a brace is required. -/
def rawLoop : ℕ → List Char → List Char → Option (List Char)
  | 0, _, _ => none
  | _ + 1, acc, '}' :: _ => some (acc ++ ['}'])
  | fuel + 1, acc, '{' :: r₂ =>
      let p := List.span (fun c => !(isBrace c)) r₂
      (match p.2 with
       | '}' :: r₄ =>
           let q := List.span (fun c => !(isBrace c)) r₄
           rawLoop fuel (acc ++ '{' :: (p.1 ++ '}' :: q.1)) q.2
       | _ => none)
  | _ + 1, _, _ => none

/-- Match of the raw-object pattern anchored at the start of `s`. -/
def matchRawAt (s : List Char) : Option (List Char) :=
  match s with
  | '{' :: rest =>
      let p := List.span (fun c => !(isBrace c)) rest
      rawLoop (p.2.length + 1) ('{' :: p.1) p.2
  | _ => none

/-- `re.search` of the raw-object pattern: the leftmost anchored match. -/
def rawSearch : List Char → Option (List Char)
  | [] => none
  | c :: rest =>
    match matchRawAt (c :: rest) with
    | some g => some g
    | none => rawSearch rest

/-- The final fallback of `_extract_json`: parse the whole text, else the
empty object. -/
def extractJsonFallback (s : List Char) : JVal := (jloads s).getD (JVal.obj [])

/-- The second attempt of `_extract_json`: the first raw-regex match, with
parse failure falling through to the whole-text attempt. -/
def extractJsonRaw (s : List Char) : JVal :=
  match rawSearch s with
  | some g =>
    (match jloads g with
     | some v => v
     | none => extractJsonFallback s)
  | none => extractJsonFallback s

/-- Embeds `AQSEvaluator._extract_json` (aqs_evaluator.py lines 794-816). -/
def extract_json (s : List Char) : JVal :=
  match fencedSearch s with
  | some g =>
    (match jloads g with
     | some v => v
     | none => extractJsonRaw s)
  | none => extractJsonRaw s

/-- Brace-depth scan: every prefix closes no more braces than it opens, and
the whole list balances exactly. -/
def balancedScan : ℕ → List Char → Bool
  | d, [] => d == 0
  | d, c :: rest =>
    if c == '{' then balancedScan (d + 1) rest
    else if c == '}' then (if d == 0 then false else balancedScan (d - 1) rest)
    else balancedScan d rest

/-- A brace-balanced object candidate: starts with an opening brace, ends
with a closing brace, and is brace-balanced. -/
def isBalancedObject (s : List Char) : Bool :=
  (match s with | '{' :: _ => true | _ => false) &&
    (s.getLast? == some '}') && balancedScan 0 s

def isJsonObjOpt : Option JVal → Bool
  | some (JVal.obj _) => true
  | _ => false

/-- Definition following the claim's words (for comparison with the code's
behaviour, not taken from the source): the largest brace-balanced JSON
object occurring in the text — among all substrings that are brace-balanced
`\x7b...\x7d` spans and parse as JSON objects, a longest one (the leftmost on
ties). -/
def largestBalancedJsonObject (s : List Char) : Option (List Char) :=
  let cands := (s.tails.map List.inits).foldr (· ++ ·) []
  let good := cands.filter (fun c => isBalancedObject c && isJsonObjOpt (jloads c))
  good.foldl (fun best c =>
    match best with
    | none => some c
    | some b => if b.length < c.length then some c else some b) none

/-- A response text containing two raw JSON objects, the larger second. -/
def twoObjectsText : List Char :=
  ("A \x7b\"a\": 1\x7d B \x7b\"bb\": 2, \"cc\": 3\x7d C").toList

/-- Counterexample to C9: on a text holding two brace-balanced JSON objects,
`_extract_json` returns the parse of the first (leftmost) regex match, not
of the largest brace-balanced JSON object. -/
theorem extract_json_not_largest :
    extract_json twoObjectsText = JVal.obj [(("a").toList, JVal.num 1)] ∧
    largestBalancedJsonObject twoObjectsText =
      some ("\x7b\"bb\": 2, \"cc\": 3\x7d").toList ∧
    (largestBalancedJsonObject twoObjectsText).bind jloads =
      some (JVal.obj [(("bb").toList, JVal.num 2), (("cc").toList, JVal.num 3)]) ∧
    extract_json twoObjectsText ≠
      JVal.obj [(("bb").toList, JVal.num 2), (("cc").toList, JVal.num 3)] := by
  refine ⟨rfl, rfl, rfl, ?_⟩
  intro h
  rw [show extract_json twoObjectsText = JVal.obj [(("a").toList, JVal.num 1)] from rfl] at h
  simp at h

/-- Claim C9, amended: `_extract_json` is total (the model returns a value
for every input, mirroring the caught `JSONDecodeError`s) and attempts, in
order: a markdown-fenced block (```json or bare ```); else the first
(leftmost) match of the raw brace regex, which matches objects of nesting
depth at most two; else the entire text as JSON; else the empty object. -/
theorem extract_json_attempt_order (s : List Char) :
    (∀ g v, fencedSearch s = some g → jloads g = some v → extract_json s = v) ∧
    (∀ g, fencedSearch s = some g → jloads g = none →
      extract_json s = extractJsonRaw s) ∧
    (fencedSearch s = none → extract_json s = extractJsonRaw s) ∧
    (∀ g v, rawSearch s = some g → jloads g = some v → extractJsonRaw s = v) ∧
    (∀ g, rawSearch s = some g → jloads g = none →
      extractJsonRaw s = extractJsonFallback s) ∧
    (rawSearch s = none → extractJsonRaw s = extractJsonFallback s) ∧
    (jloads s = none → extractJsonFallback s = JVal.obj []) := by
  refine ⟨?_, ?_, ?_, ?_, ?_, ?_, ?_⟩ <;> intros <;>
    simp_all [extract_json, extractJsonRaw, extractJsonFallback]

/-- Witness for the amended C9 on a text with no JSON at all: every attempt
falls through and the result is the empty object. -/
theorem extract_json_attempt_order_witness :
    extract_json ("no json here").toList = extractJsonRaw ("no json here").toList ∧
    extractJsonRaw ("no json here").toList = extractJsonFallback ("no json here").toList ∧
    extractJsonFallback ("no json here").toList = JVal.obj [] :=
  ⟨(extract_json_attempt_order _).2.2.1 rfl,
   (extract_json_attempt_order _).2.2.2.2.2.1 rfl,
   (extract_json_attempt_order _).2.2.2.2.2.2 rfl⟩

end AQS
